import Mathlib

/-!
Shallow embedding of the Catalyst Center agent (src/ai_tools.py and
src/ai_agent.py).

HTTP transport is abstracted: each operation takes the response(s) the
server would deliver as an explicit argument.  Python exceptions are
modelled with `Except`; the process-wide module globals of ai_tools.py
are modelled by the `Globals` structure, threaded explicitly.
-/

set_option autoImplicit false

namespace CatalystAgent

/-- JSON object bodies are modelled as association lists of string fields.
`jsonGet k body` models Python's `dict.get(k)` / `dict[k]` lookup on the
parsed response body. -/
def jsonGet (k : String) : List (String × String) → Option String
  | [] => none
  | (k2, v) :: rest => if k2 = k then some v else jsonGet k rest

/-- `beginsWith hay pat` is true when `pat` is an initial segment of `hay`. -/
def beginsWith : List Char → List Char → Bool
  | _, [] => true
  | [], _ :: _ => false
  | a :: as, b :: bs => a = b && beginsWith as bs

/-- `hasSub hay pat` models Python's `pat in hay` substring test on text. -/
def hasSub : List Char → List Char → Bool
  | [], pat => pat.isEmpty
  | a :: t, pat => beginsWith (a :: t) pat || hasSub t pat

/-- Serialized form of one JSON string field, `"k": "v"`. -/
def jsonFieldText (kv : String × String) : String :=
  "\"" ++ kv.1 ++ "\": \"" ++ kv.2 ++ "\""

/-- Serialized form of the comma-separated field list of a JSON object. -/
def fieldsText : List (String × String) → String
  | [] => ""
  | [kv] => jsonFieldText kv
  | kv :: rest => jsonFieldText kv ++ ", " ++ fieldsText rest

/-- An HTTP response whose body is a JSON object of string fields. -/
structure HttpResponse where
  body : List (String × String)
  deriving Repr, DecidableEq

/-- Models `response.text`: the raw body text, the canonical serialization
of the JSON object. -/
def responseText (r : HttpResponse) : String :=
  "\x7b" ++ fieldsText r.body ++ "\x7d"

/-- Python exceptions raised by the tool functions. -/
inductive PyErr where
  /-- `ValueError`, raised explicitly by `get_auth_token`. -/
  | valueError (msg : String)
  /-- `KeyError` from a `dict[k]` access on a missing key. -/
  | keyError (key : String)
  /-- an exception raised by `requests` itself (transport failure). -/
  | transportError
  deriving Repr, DecidableEq

/-- The module-level globals of ai_tools.py. -/
structure Globals where
  baseUrl : String
  username : String
  password : String
  token : String
  deriving Repr, DecidableEq

/-- `get_auth_token` from src/ai_tools.py, lines 18-43.  The POST response
is passed in as `resp`.  Returns the raised exception or the returned
token, together with the globals after the call (line 42 assigns
`_TOKEN`). -/
def get_auth_token (g : Globals) (resp : HttpResponse) :
    Except PyErr String × Globals :=
  if hasSub (responseText resp).data ("error").data then
    match jsonGet "error" resp.body with
    | some reason =>
        (Except.error (PyErr.valueError
          ("ERROR: Failed to retrieve Access Token! REASON: " ++ reason)), g)
    | none => (Except.error (PyErr.keyError "error"), g)
  else
    match jsonGet "Token" resp.body with
    | some t => (Except.ok t, { g with token := t })
    | none => (Except.error (PyErr.keyError "Token"), g)

/-- The outcome of one paginated GET in `get_device_inventory`: the value
of `response.json().get("response")`, or an exception during the request. -/
inductive FetchResult (α : Type) where
  /-- the request succeeded and the `response` field holds these records
  (an absent field is modelled by `ok []`: both are falsy, line 70) -/
  | ok (records : List α)
  /-- the request (or JSON decoding) raised an exception -/
  | exn
  deriving Repr, DecidableEq

/-- The observable outcome of `get_device_inventory`: the returned list,
the offset parameter of the final request issued, and the number of
requests issued. -/
structure InvResult (α : Type) where
  devices : List α
  lastOffset : Nat
  requests : Nat
  deriving Repr, DecidableEq

/-- The `while True` loop of `get_device_inventory` (src/ai_tools.py,
lines 65-76).  `pages` lists the server's responses in request order; once
it is exhausted the server is past its data and answers with an empty
`response` array (`ok []`).  The page size `limit` is the constant 500
(line 64). -/
def runInv {α : Type} : List (FetchResult α) → Nat → List α → Nat → InvResult α
  | [], offset, acc, reqs => ⟨acc, offset, reqs + 1⟩
  | FetchResult.ok [] :: _, offset, acc, reqs => ⟨acc, offset, reqs + 1⟩
  | FetchResult.ok (r :: rs) :: rest, offset, acc, reqs =>
      runInv rest (offset + 500) (acc ++ r :: rs) (reqs + 1)
  | FetchResult.exn :: _, offset, acc, reqs => ⟨acc, offset, reqs + 1⟩

/-- `get_device_inventory` from src/ai_tools.py, lines 46-77: offset starts
at 1 (line 63), the accumulator empty (line 62), no request issued yet.
The `try/except` catches every exception (lines 75-76) and the accumulated
`device_list` is returned either way (line 77), so the function is total. -/
def get_device_inventory {α : Type} (token : String)
    (pages : List (FetchResult α)) : InvResult α :=
  let _ := token
  runInv pages 1 [] 0

/-- `get_device_config` from src/ai_tools.py, lines 80-100.  `fetchRes` is
`none` when `requests.get` raises, otherwise the parsed JSON body.  The
function catches nothing: every failure is returned as the raised
exception. -/
def get_device_config (token deviceId : String)
    (fetchRes : Option (List (String × String))) : Except PyErr String :=
  let _ := token
  let _ := deviceId
  match fetchRes with
  | none => Except.error PyErr.transportError
  | some body =>
      match jsonGet "response" body with
      | some c => Except.ok c
      | none => Except.error (PyErr.keyError "response")

/-- Module-level startup guard of src/ai_agent.py, lines 22-26:
`OPENAI_API_KEY = os.getenv("AI_ACCESS_TOKEN")` followed by
`if not OPENAI_API_KEY: raise EnvironmentError(...)`.  It runs at import
time, before `main` can serve any request; an error here aborts the
process.  `env` is the process environment. -/
def startupCheck (env : List (String × String)) : Except String String :=
  match jsonGet "AI_ACCESS_TOKEN" env with
  | none => Except.error
      "OpenAI API key is missing. Please check your .env file or environment variables."
  | some v =>
      if v = "" then
        Except.error
          "OpenAI API key is missing. Please check your .env file or environment variables."
      else Except.ok v

/-- A chat message in `st.session_state.messages`. -/
structure Msg where
  role : String
  content : String
  deriving Repr, DecidableEq

/-- The last message of one streamed event, as seen by the extraction code
of `process_user_message` (src/ai_agent.py, lines 87-94). -/
inductive AssistantMsg where
  /-- a dict or object whose `content` is this string -/
  | withContent (c : String)
  /-- a dict or object with no `content` key/attribute -/
  | without
  /-- an object whose content extraction raises an exception -/
  | raising
  deriving Repr, DecidableEq

/-- Lines 87-94 of src/ai_agent.py: the `try/except` around content
extraction.  A raised exception is caught and replaced by the placeholder
(line 94). -/
def extractDisplay : AssistantMsg → String
  | AssistantMsg.withContent c => c
  | AssistantMsg.without => "No content available"
  | AssistantMsg.raising => "Error displaying response."

/-- One iteration of the `for event in events` loop (lines 83-94): an event
without a `"messages"` key leaves `final_response` unchanged; otherwise
`final_response` is overwritten by the extracted (or placeholder) text. -/
def stepFinal (acc : Option String) : Option AssistantMsg → Option String
  | none => acc
  | some m => some (extractDisplay m)

/-- The observable outcome of one turn: the session transcript afterwards
and the turn's `final_response` value. -/
structure TurnResult where
  transcript : List Msg
  finalResp : Option String
  deriving Repr, DecidableEq

/-- `process_user_message` from src/ai_agent.py, lines 77-96.  `transcript`
is `st.session_state.messages` on entry; `events` lists, for each streamed
event, the last message of its `"messages"` value (or `none` when the event
has no `"messages"` key).  Line 80 appends the user message; lines 82-94
compute `final_response`; line 95-96 append the assistant message when
`final_response` is truthy (non-`None` and non-empty). -/
def process_user_message (transcript : List Msg) (userInput : String)
    (events : List (Option AssistantMsg)) : TurnResult :=
  let t1 := transcript ++ [⟨"user", userInput⟩]
  match events.foldl stepFinal none with
  | none => ⟨t1, none⟩
  | some s =>
      if s = "" then ⟨t1, some s⟩
      else ⟨t1 ++ [⟨"assistant", s⟩], some s⟩

/-- Appending one message to the transcript (the only mutation the agent
performs on it). -/
def appendMsg (t : List Msg) (m : Msg) : List Msg := t ++ [m]

/-! ### Lemmas about the pagination loop -/

theorem runInv_nonempty_cons {α : Type} (p : List α) (hp : p ≠ [])
    (rest : List (FetchResult α)) (offset : Nat) (acc : List α) (reqs : Nat) :
    runInv (FetchResult.ok p :: rest) offset acc reqs
      = runInv rest (offset + 500) (acc ++ p) (reqs + 1) := by
  cases p with
  | nil => exact absurd rfl hp
  | cons r rs => rfl

theorem runInv_full {α : Type} (ps : List (List α)) (h : ∀ p ∈ ps, p ≠ [])
    (rest : List (FetchResult α)) (offset : Nat) (acc : List α) (reqs : Nat) :
    runInv (ps.map FetchResult.ok ++ rest) offset acc reqs
      = runInv rest (offset + 500 * ps.length) (acc ++ ps.flatten)
          (reqs + ps.length) := by
  induction ps generalizing offset acc reqs with
  | nil => simp
  | cons p ps ih =>
    rw [List.map_cons, List.cons_append,
      runInv_nonempty_cons p (h p (List.mem_cons_self p ps)),
      ih (fun q hq => h q (List.mem_cons_of_mem p hq))]
    have h1 : offset + 500 + 500 * ps.length = offset + 500 * (p :: ps).length := by
      simp [List.length_cons, Nat.mul_succ]; omega
    have h2 : reqs + 1 + ps.length = reqs + (p :: ps).length := by
      simp [List.length_cons]; omega
    have h3 : acc ++ p ++ ps.flatten = acc ++ (p :: ps).flatten := by simp
    rw [h1, h2, h3]

/-! ### Claims about `get_device_inventory` -/

set_option maxRecDepth 4000 in
/-- C1, counterexample: one full page of 500 records followed by a last
page of 1 record (fewer than 500).  The claim predicts a final request
offset of 1 + 500 × 1 = 501, but the loop advances past the non-empty
partial page and issues a further request at offset 1001 which returns the
empty page that stops it. -/
theorem c1_counterexample :
    (List.replicate 500 (0 : Nat)).length = 500 ∧
    ([7] : List Nat).length < 500 ∧
    (get_device_inventory "tok"
      (([List.replicate 500 (0 : Nat)] ++ [[7]]).map FetchResult.ok)).devices
        = ([List.replicate 500 (0 : Nat)] ++ [[7]]).flatten ∧
    (get_device_inventory "tok"
      (([List.replicate 500 (0 : Nat)] ++ [[7]]).map FetchResult.ok)).lastOffset
        = 1001 ∧
    (1001 : Nat) ≠ 1 + 500 * 1 := by decide

/-- C1, amended: for pages of which each before the last has exactly 500
records and the last fewer, the returned list is the concatenation of all
pages in order; the final request offset is 1 + 500 × (number of non-empty
pages) — which is 1 + 500 × (number of full pages) exactly when the last
page is empty — and one request is issued per non-empty page plus the
final empty-page request that stops the loop.  Offsets start at 1 and
advance by 500 only after a non-empty page. -/
theorem c1_inventory_pagination (token : String) (ps : List (List Nat))
    (last : List Nat) (hfull : ∀ p ∈ ps, p.length = 500)
    (hlast : last.length < 500) :
    (get_device_inventory token ((ps ++ [last]).map FetchResult.ok)).devices
        = (ps ++ [last]).flatten ∧
    (get_device_inventory token ((ps ++ [last]).map FetchResult.ok)).lastOffset
        = 1 + 500 * ((ps ++ [last]).countP (fun p => !p.isEmpty)) ∧
    (get_device_inventory token ((ps ++ [last]).map FetchResult.ok)).requests
        = (ps ++ [last]).countP (fun p => !p.isEmpty) + 1 := by
  have hne : ∀ p ∈ ps, p ≠ [] := by
    intro p hp hnil
    have hl := hfull p hp
    rw [hnil] at hl
    simp at hl
  have hcnt : ps.countP (fun p => !p.isEmpty) = ps.length := by
    rw [List.countP_eq_length]
    intro p hp
    simpa [List.isEmpty_iff] using hne p hp
  unfold get_device_inventory
  cases last with
  | nil =>
    rw [List.map_append, runInv_full ps hne]
    refine ⟨by simp [runInv], by simp [runInv, hcnt, Nat.add_comm], ?_⟩
    simp [runInv, hcnt]
  | cons c cs =>
    have hne2 : ∀ p ∈ ps ++ [c :: cs], p ≠ [] := by
      intro p hp
      rcases List.mem_append.mp hp with hp1 | hp2
      · exact hne p hp1
      · rw [List.mem_singleton.mp hp2]; simp
    have hrun := runInv_full (ps ++ [c :: cs]) hne2 [] 1 [] 0
    rw [List.append_nil] at hrun
    rw [hrun]
    have hcnt2 : (ps ++ [c :: cs]).countP (fun p => !p.isEmpty)
        = ps.length + 1 := by
      rw [List.countP_append, hcnt]
      simp [List.countP_cons]
    refine ⟨by simp [runInv], ?_, ?_⟩
    · simp [runInv, hcnt2, Nat.add_comm]
    · simp [runInv, hcnt2]

/-- C1, witness for the amended theorem at one full-less sequence: a single
non-empty last page of one record. -/
theorem c1_inventory_pagination_witness :
    (get_device_inventory "tok" (([] ++ [[3]]).map FetchResult.ok)).devices
        = ([] ++ [[3]] : List (List Nat)).flatten ∧
    (get_device_inventory "tok" (([] ++ [[3]]).map FetchResult.ok)).lastOffset
        = 1 + 500 * (([] ++ [[3]] : List (List Nat)).countP (fun p => !p.isEmpty)) ∧
    (get_device_inventory "tok" (([] ++ [[3]]).map FetchResult.ok)).requests
        = ([] ++ [[3]] : List (List Nat)).countP (fun p => !p.isEmpty) + 1 :=
  c1_inventory_pagination "tok" [] [3] (by decide) (by decide)

/-- C3: a request-level failure during pagination is caught (the model of
`get_device_inventory` is a total function: the `try/except` of lines
65-76 swallows every exception) and the records accumulated from the
pages fetched before the failure are returned. -/
theorem c3_partial_results (token : String) (ps : List (List Nat))
    (h : ∀ p ∈ ps, p ≠ []) (rest : List (FetchResult Nat)) :
    (get_device_inventory token
        (ps.map FetchResult.ok ++ FetchResult.exn :: rest)).devices
      = ps.flatten := by
  unfold get_device_inventory
  rw [runInv_full ps h]
  simp [runInv]

/-- C3, witness: a transport failure while fetching page 2 of 3 yields
exactly page 1's records. -/
theorem c3_partial_results_witness :
    (get_device_inventory "tok"
        (([[1, 2]] : List (List Nat)).map FetchResult.ok
          ++ FetchResult.exn :: [FetchResult.ok [3, 4]])).devices
      = ([[1, 2]] : List (List Nat)).flatten :=
  c3_partial_results "tok" [[1, 2]] (by decide) [FetchResult.ok [3, 4]]

/-- C6: when the first page returns zero records, the result is the empty
list, the loop stops at once, and exactly one request was issued (at
offset 1). -/
theorem c6_empty_first_page {α : Type} (token : String)
    (rest : List (FetchResult α)) :
    get_device_inventory token (FetchResult.ok [] :: rest)
      = ⟨[], 1, 1⟩ := rfl

/-! ### Claims about `get_auth_token` -/

/-- C2: against the response body enclosing `"error": "bad credentials"`,
`get_auth_token` raises (returns an error, never a token), the raised
error is the explicit `ValueError`, and its message contains the
provider-supplied reason `bad credentials`. -/
theorem c2_auth_error_reason (g : Globals) :
    (get_auth_token g ⟨[("error", "bad credentials")]⟩).1
      = Except.error (PyErr.valueError
          "ERROR: Failed to retrieve Access Token! REASON: bad credentials") ∧
    hasSub ("ERROR: Failed to retrieve Access Token! REASON: bad credentials").data
      ("bad credentials").data = true := by
  exact ⟨rfl, by decide⟩

/-- C4: success or failure of `get_auth_token` is decided by the substring
test `"error" in response.text` (line 39): whenever the raw body text
contains `error` anywhere the call raises — even when the body also
carries a `Token` field — and it returns a token only when `error` does
not occur in the body text. -/
theorem c4_error_substring_gate (g : Globals) (resp : HttpResponse) :
    (hasSub (responseText resp).data ("error").data = true →
      ∀ t, (get_auth_token g resp).1 ≠ Except.ok t) ∧
    (∀ t, (get_auth_token g resp).1 = Except.ok t →
      hasSub (responseText resp).data ("error").data = false) := by
  have h1 : hasSub (responseText resp).data ("error").data = true →
      ∀ t, (get_auth_token g resp).1 ≠ Except.ok t := by
    intro h t
    unfold get_auth_token
    rw [if_pos h]
    cases jsonGet "error" resp.body <;> simp
  refine ⟨h1, fun t hok => ?_⟩
  cases hc : hasSub (responseText resp).data ("error").data with
  | false => rfl
  | true => exact absurd hok (h1 hc t)

/-- C4, witness: a body that carries both a valid `Token` field and the
substring `error` is rejected. -/
theorem c4_error_substring_gate_witness :
    (get_auth_token ⟨"b", "u", "p", ""⟩
        ⟨[("Token", "tok123"), ("error", "x")]⟩).1 ≠ Except.ok "tok123" :=
  (c4_error_substring_gate ⟨"b", "u", "p", ""⟩
    ⟨[("Token", "tok123"), ("error", "x")]⟩).1 (by decide) "tok123"

/-- C7: on every successful call, `get_auth_token` stores the returned
token in the module global `_TOKEN` and leaves every other global
untouched (line 42 is its only assignment to process state). -/
theorem c7_token_cache (g : Globals) (resp : HttpResponse) (t : String)
    (h : (get_auth_token g resp).1 = Except.ok t) :
    (get_auth_token g resp).2 = { g with token := t } := by
  unfold get_auth_token at h ⊢
  by_cases hc : hasSub (responseText resp).data ("error").data = true
  · rw [if_pos hc] at h
    cases hj : jsonGet "error" resp.body <;> simp [hj] at h
  · rw [if_neg hc] at h ⊢
    cases hj : jsonGet "Token" resp.body with
    | none => simp [hj] at h
    | some t2 =>
        simp only [hj] at h ⊢
        have ht : t2 = t := by simpa using h
        rw [ht]

/-- C7, witness: a concrete successful authentication writes the returned
token into the globals and changes nothing else. -/
theorem c7_token_cache_witness :
    (get_auth_token ⟨"b", "u", "p", ""⟩ ⟨[("Token", "abc123")]⟩).2
      = { (⟨"b", "u", "p", ""⟩ : Globals) with token := "abc123" } :=
  c7_token_cache ⟨"b", "u", "p", ""⟩ ⟨[("Token", "abc123")]⟩ "abc123" rfl

/-! ### Claim about `get_device_config` -/

/-- C5: `get_device_config` raises on a transport failure and on a body
missing the `response` field, and otherwise returns that field verbatim;
it has no handler, so there is no partial or default result: every input
yields either the exact field content or a raised exception. -/
theorem c5_config_no_degrade (token deviceId : String) :
    (get_device_config token deviceId none
        = Except.error PyErr.transportError) ∧
    (∀ body, jsonGet "response" body = none →
      get_device_config token deviceId (some body)
        = Except.error (PyErr.keyError "response")) ∧
    (∀ body c, jsonGet "response" body = some c →
      get_device_config token deviceId (some body) = Except.ok c) := by
  refine ⟨rfl, fun body hb => ?_, fun body c hb => ?_⟩
  · simp [get_device_config, hb]
  · simp [get_device_config, hb]

/-- C5, witness: a present `response` field is returned verbatim. -/
theorem c5_config_no_degrade_witness :
    get_device_config "tok" "dev1" (some [("response", "hostname R1")])
      = Except.ok "hostname R1" :=
  (c5_config_no_degrade "tok" "dev1").2.2
    [("response", "hostname R1")] "hostname R1" (by decide)

/-! ### Claim about the startup guard of ai_agent.py -/

/-- C8: when the model-provider credential `AI_ACCESS_TOKEN` is absent
from the environment, the import-time guard aborts with the missing-key
error before any request can be served. -/
theorem c8_missing_credential_fatal (env : List (String × String))
    (h : jsonGet "AI_ACCESS_TOKEN" env = none) :
    startupCheck env = Except.error
      "OpenAI API key is missing. Please check your .env file or environment variables." := by
  unfold startupCheck
  rw [h]

/-- C8, witness: an empty environment aborts startup. -/
theorem c8_missing_credential_fatal_witness :
    startupCheck [] = Except.error
      "OpenAI API key is missing. Please check your .env file or environment variables." :=
  c8_missing_credential_fatal [] (by decide)

/-! ### Claims about `process_user_message` -/

/-- C9, counterexample: when extraction raises, the placeholder the code
substitutes (line 94 of src/ai_agent.py) is the literal
`Error displaying response.`, not the string `error displaying response`
named by the claim. -/
theorem c9_counterexample :
    (process_user_message [] "hi" [some AssistantMsg.raising]).finalResp
        = some "Error displaying response." ∧
    some "Error displaying response." ≠ some "error displaying response" := by
  exact ⟨rfl, by decide⟩

/-- C9, amended: whenever content extraction for the last streamed event
raises, the exception is caught at the display layer, the turn's final
response is the placeholder `Error displaying response.`, and the session
continues: the turn still appends the user message and an assistant
message carrying the placeholder, aborting nothing. -/
theorem c9_display_degradation (t : List Msg) (u : String)
    (pre : List (Option AssistantMsg)) :
    (process_user_message t u (pre ++ [some AssistantMsg.raising])).finalResp
        = some "Error displaying response." ∧
    (process_user_message t u (pre ++ [some AssistantMsg.raising])).transcript
        = t ++ [⟨"user", u⟩, ⟨"assistant", "Error displaying response."⟩] := by
  unfold process_user_message
  rw [List.foldl_append]
  simp [stepFinal, extractDisplay]

/-- Folding `appendMsg` over a message list appends it to the
accumulator. -/
theorem appendMsg_foldl (ms : List Msg) :
    ∀ acc : List Msg, ms.foldl appendMsg acc = acc ++ ms := by
  induction ms with
  | nil => intro acc; simp
  | cons m ms ih =>
      intro acc
      rw [List.foldl_cons, ih]
      simp [appendMsg]

/-- C10: appending N messages to an empty transcript and reading it back
yields exactly those messages in order, and `process_user_message` only
ever extends the transcript — the prior transcript survives as an
unchanged prefix of the new one, so no turn removes or reorders earlier
messages. -/
theorem c10_transcript_round_trip :
    (∀ ms : List Msg, ms.foldl appendMsg ([] : List Msg) = ms) ∧
    (∀ (t : List Msg) (u : String) (events : List (Option AssistantMsg)),
      ∃ tail, (process_user_message t u events).transcript = t ++ tail) := by
  constructor
  · intro ms
    simpa using appendMsg_foldl ms []
  · intro t u events
    unfold process_user_message
    cases events.foldl stepFinal none with
    | none => exact ⟨[⟨"user", u⟩], rfl⟩
    | some s =>
        by_cases h : s = ""
        · exact ⟨[⟨"user", u⟩], by simp [h]⟩
        · exact ⟨[⟨"user", u⟩, ⟨"assistant", s⟩], by simp [h]⟩

end CatalystAgent
